import Mathlib

/-
  Verification of src/check_features.py.

  The script is a sequential batch driver: it probes the build tool
  (cargo --version), loads Cargo.toml, enumerates the feature-table keys
  (dropping names with the reserved prefix "utils-"), runs
  cargo check and cargo test once per remaining feature, accumulates the
  failing feature names in two ordered lists, prints a report, and exits
  with 0 or 1.

  The embedding below models each subprocess.run(..., check=True) call by
  its three possible outcomes: the process exits 0 (the call returns),
  exits non-zero (raises CalledProcessError), or the executable cannot be
  launched (raises FileNotFoundError).  The environment supplies these
  outcomes per invocation, the manifest-load result, and the probe result;
  main is then a pure function from the environment to an observable
  run result (termination, printed lines, invocation trace, the two
  accumulator lists, and the processed feature sequence).
-/

namespace CheckFeatures

/-- Outcome of one subprocess.run call issued with check set: the child
exits with status 0, exits with a non-zero status (Python raises
CalledProcessError), or the executable cannot be launched at all (Python
raises FileNotFoundError). -/
inductive InvResult where
  | ok
  | calledProcessError
  | fileNotFound
deriving DecidableEq, Repr

/-- The parsed Cargo.toml, as far as the script consults it: only the
features table matters, and of it only the keys in declaration order
(the values are ignored by the script).  A document with no features
table is modelled by none; line 32 (cargo_toml.get with default) then
yields the empty table. -/
structure Manifest where
  featuresTable : Option (List String)
deriving DecidableEq, Repr

/-- Result of opening and parsing Cargo.toml (lines 22-30): the file is
absent (FileNotFoundError), present but malformed (any other exception,
carrying its rendered message), or parsed. -/
inductive ManifestLoad where
  | notFound
  | parseError (msg : String)
  | ok (doc : Manifest)
deriving DecidableEq, Repr

/-- One external cargo invocation issued by the script.  The full argv of
each kind is fixed by the source (lines 8, 46, 55) once the feature name
is fixed, so the trace records only the kind and the feature. -/
inductive Invocation where
  | version
  | check (feature : String)
  | test (feature : String)
deriving DecidableEq, Repr

/-- The external world as the script observes it: how the version probe
behaves, what loading Cargo.toml yields, and how each cargo check and
cargo test invocation exits per feature name. -/
structure Env where
  cargoVersion : InvResult
  manifest : ManifestLoad
  check : String → InvResult
  test : String → InvResult

/-- How the process ends: sys.exit with the given code, or a
FileNotFoundError raised inside the per-feature loop escaping main
uncaught (the loop catches only CalledProcessError, lines 49 and 58). -/
inductive Outcome where
  | exited (code : Nat)
  | uncaughtFileNotFound
deriving DecidableEq, Repr

/-- The mutable locals of main while the loop runs: printed lines so far,
invocations issued so far, and the two accumulator lists
failed_features and test_failed_features (lines 40-41). -/
structure RunState where
  output : List String
  trace : List Invocation
  failed_features : List String
  test_failed_features : List String
deriving DecidableEq, Repr

/-- Everything observable about one run of the script: termination,
printed lines (one list entry per print call), the invocation trace, the
final accumulator lists, and the processed feature sequence (the value of
the local feature_names; empty when the run ends before line 33). -/
structure RunResult where
  outcome : Outcome
  output : List String
  trace : List Invocation
  failed_features : List String
  test_failed_features : List String
  processed : List String
deriving DecidableEq, Repr

/-- Python str.startswith (line 34): the character sequence of the second
string is an initial segment of the character sequence of the first.
Stated over the character lists so that it evaluates by structural
recursion inside the kernel. -/
def startswith (name pre : String) : Bool :=
  List.isPrefixOf pre.toList name.toList

/-- Lines 32-34: the keys of the features table (empty table when the key
is missing), with every name starting with the reserved prefix removed. -/
def feature_names (doc : Manifest) : List String :=
  (doc.featuresTable.getD []).filter (fun name => !(startswith name "utils-"))

/-- Lines 46-53: the cargo check stage for one feature.  The invocation is
recorded; a non-zero exit is caught and appends the feature to
failed_features; a launch failure is not caught (second component true
means the exception escapes). -/
def runCheckStage (env : Env) (feature : String) (st : RunState) : RunState × Bool :=
  let st := { st with trace := st.trace ++ [Invocation.check feature] }
  match env.check feature with
  | InvResult.fileNotFound => (st, true)
  | InvResult.calledProcessError =>
      ({ st with failed_features := st.failed_features ++ [feature],
                 output := st.output ++
                   ["❌ Feature \x27" ++ feature ++ "\x27 failed to compile"] }, false)
  | InvResult.ok =>
      ({ st with output := st.output ++
                   ["✅ Feature \x27" ++ feature ++ "\x27 compiled successfully"] }, false)

/-- Lines 55-62: the cargo test stage for one feature, run unconditionally
after the check stage; a non-zero exit appends the feature to
test_failed_features, a launch failure escapes. -/
def runTestStage (env : Env) (feature : String) (st : RunState) : RunState × Bool :=
  let st := { st with trace := st.trace ++ [Invocation.test feature] }
  match env.test feature with
  | InvResult.fileNotFound => (st, true)
  | InvResult.calledProcessError =>
      ({ st with test_failed_features := st.test_failed_features ++ [feature],
                 output := st.output ++
                   ["❌ Tests for feature \x27" ++ feature ++ "\x27 failed"] }, false)
  | InvResult.ok =>
      ({ st with output := st.output ++
                   ["✅ Tests for feature \x27" ++ feature ++ "\x27 passed"] }, false)

/-- Lines 44-62: the per-feature loop over the enumerated feature list
(index paired with name, indices from 1).  Each iteration prints the
progress line, runs the check stage and then the test stage, and moves to
the next feature; an uncaught exception in either stage aborts the loop
(second component true). -/
def runLoop (env : Env) (total : Nat) : List (Nat × String) → RunState → RunState × Bool
  | [], st => (st, false)
  | (idx, feature) :: rest, st =>
    let st1 := { st with output := st.output ++
      ["\nTesting feature " ++ toString idx ++ "/" ++ toString total ++ ": " ++ feature] }
    let r1 := runCheckStage env feature st1
    if r1.2 then (r1.1, true)
    else
      let r2 := runTestStage env feature r1.1
      if r2.2 then (r2.1, true)
      else runLoop env total rest r2.1

/-- Lines 64-72: the final report, printed only when at least one list is
non-empty: the compile failures under their header, then the test
failures under theirs, each one name per line in accumulation order. -/
def reportLines (failed test_failed : List String) : List String :=
  (if failed.isEmpty then []
   else ["\nFailed features:"] ++ failed.map (fun f => "  - " ++ f)) ++
  (if test_failed.isEmpty then []
   else ["\nFailed tests for features:"] ++ test_failed.map (fun f => "  - " ++ f))

/-- The state of main right before the loop starts (lines 40-43): the two
accumulator lists are empty, the version probe is the only invocation so
far, and the header line announcing the feature count has been printed. -/
def initState (total : Nat) : RunState :=
  { output := ["Testing " ++ toString total ++ " features..."],
    trace := [Invocation.version],
    failed_features := [], test_failed_features := [] }

/-- Shallow embedding of main (lines 5-76).  The version probe (lines
7-19), manifest load (lines 22-30), feature enumeration and empty check
(lines 32-38), the loop (lines 43-62), and the final report and exit
(lines 64-76). -/
def main (env : Env) : RunResult :=
  match env.cargoVersion with
  | InvResult.fileNotFound =>
      { outcome := Outcome.exited 1,
        output := ["Error: \x27cargo\x27 not found. Install Rust and ensure it\x27s in PATH."],
        trace := [Invocation.version],
        failed_features := [], test_failed_features := [], processed := [] }
  | InvResult.calledProcessError =>
      -- line 18 renders the caught CalledProcessError after the prefix;
      -- the rendering of the exception object is abstracted away.
      { outcome := Outcome.exited 1,
        output := ["Error checking cargo: "],
        trace := [Invocation.version],
        failed_features := [], test_failed_features := [], processed := [] }
  | InvResult.ok =>
    match env.manifest with
    | ManifestLoad.notFound =>
        { outcome := Outcome.exited 1,
          output := ["Error: Cargo.toml not found in current directory."],
          trace := [Invocation.version],
          failed_features := [], test_failed_features := [], processed := [] }
    | ManifestLoad.parseError msg =>
        { outcome := Outcome.exited 1,
          output := ["Error parsing Cargo.toml: " ++ msg],
          trace := [Invocation.version],
          failed_features := [], test_failed_features := [], processed := [] }
    | ManifestLoad.ok doc =>
      let names := feature_names doc
      if names.isEmpty then
        { outcome := Outcome.exited 0,
          output := ["No features defined in Cargo.toml."],
          trace := [Invocation.version],
          failed_features := [], test_failed_features := [], processed := names }
      else
        let r := runLoop env names.length (List.enumFrom 1 names) (initState names.length)
        if r.2 then
          { outcome := Outcome.uncaughtFileNotFound,
            output := r.1.output, trace := r.1.trace,
            failed_features := r.1.failed_features,
            test_failed_features := r.1.test_failed_features,
            processed := names }
        else if !r.1.failed_features.isEmpty || !r.1.test_failed_features.isEmpty then
          { outcome := Outcome.exited 1,
            output := r.1.output ++
              reportLines r.1.failed_features r.1.test_failed_features,
            trace := r.1.trace,
            failed_features := r.1.failed_features,
            test_failed_features := r.1.test_failed_features,
            processed := names }
        else
          { outcome := Outcome.exited 0,
            output := r.1.output ++ ["\nAll features compiled successfully!"],
            trace := r.1.trace,
            failed_features := r.1.failed_features,
            test_failed_features := r.1.test_failed_features,
            processed := names }



theorem runLoop_no_fnf (env : Env) (total : Nat) :
    ∀ (feats : List (Nat × String)) (st : RunState),
    (∀ p ∈ feats, env.check p.2 ≠ InvResult.fileNotFound) →
    (∀ p ∈ feats, env.test p.2 ≠ InvResult.fileNotFound) →
    (runLoop env total feats st).2 = false ∧
    (runLoop env total feats st).1.failed_features
      = st.failed_features ++ (feats.map Prod.snd).filter
          (fun f => decide (env.check f = InvResult.calledProcessError)) ∧
    (runLoop env total feats st).1.test_failed_features
      = st.test_failed_features ++ (feats.map Prod.snd).filter
          (fun f => decide (env.test f = InvResult.calledProcessError)) ∧
    (runLoop env total feats st).1.trace
      = st.trace ++ feats.flatMap (fun p => [Invocation.check p.2, Invocation.test p.2]) := by
  intro feats
  induction feats with
  | nil => intro st hc ht; simp [runLoop]
  | cons hd tl ih =>
    obtain ⟨idx, feature⟩ := hd
    intro st hc ht
    have hcf := hc (idx, feature) (by simp)
    have htf := ht (idx, feature) (by simp)
    have hc' : ∀ p ∈ tl, env.check p.2 ≠ InvResult.fileNotFound :=
      fun p hp => hc p (List.mem_cons_of_mem _ hp)
    have ht' : ∀ p ∈ tl, env.test p.2 ≠ InvResult.fileNotFound :=
      fun p hp => ht p (List.mem_cons_of_mem _ hp)
    have ihA : ∀ s, (runLoop env total tl s).2 = false :=
      fun s => (ih s hc' ht').1
    have ihB : ∀ s, (runLoop env total tl s).1.failed_features
        = s.failed_features ++ (tl.map Prod.snd).filter
            (fun f => decide (env.check f = InvResult.calledProcessError)) :=
      fun s => (ih s hc' ht').2.1
    have ihC : ∀ s, (runLoop env total tl s).1.test_failed_features
        = s.test_failed_features ++ (tl.map Prod.snd).filter
            (fun f => decide (env.test f = InvResult.calledProcessError)) :=
      fun s => (ih s hc' ht').2.2.1
    have ihD : ∀ s, (runLoop env total tl s).1.trace
        = s.trace ++ tl.flatMap (fun p => [Invocation.check p.2, Invocation.test p.2]) :=
      fun s => (ih s hc' ht').2.2.2
    cases hchk : env.check feature <;> cases htst : env.test feature <;>
      first
      | exact absurd hchk hcf
      | exact absurd htst htf
      | (simp only [runLoop, runCheckStage, runTestStage, hchk, htst]
         simp [ihA, ihB, ihC, ihD, List.filter, hchk, htst])

theorem runLoop_mem_failed (env : Env) (total : Nat) :
    ∀ (feats : List (Nat × String)) (st : RunState) (f : String),
    f ∈ (runLoop env total feats st).1.failed_features →
    f ∈ st.failed_features ∨ f ∈ feats.map Prod.snd := by
  intro feats
  induction feats with
  | nil => intro st f; simp [runLoop]
  | cons hd tl ih =>
    obtain ⟨idx, feature⟩ := hd
    intro st f
    cases hchk : env.check feature <;> cases htst : env.test feature <;>
      simp only [runLoop, runCheckStage, runTestStage, hchk, htst, Bool.false_eq_true,
        if_false, if_true, ite_true, ite_false] <;>
      intro hf
    all_goals try replace hf := ih _ f hf
    all_goals simp at hf ⊢
    all_goals tauto

theorem runLoop_mem_test_failed (env : Env) (total : Nat) :
    ∀ (feats : List (Nat × String)) (st : RunState) (f : String),
    f ∈ (runLoop env total feats st).1.test_failed_features →
    f ∈ st.test_failed_features ∨ f ∈ feats.map Prod.snd := by
  intro feats
  induction feats with
  | nil => intro st f; simp [runLoop]
  | cons hd tl ih =>
    obtain ⟨idx, feature⟩ := hd
    intro st f
    cases hchk : env.check feature <;> cases htst : env.test feature <;>
      simp only [runLoop, runCheckStage, runTestStage, hchk, htst, Bool.false_eq_true,
        if_false, if_true, ite_true, ite_false] <;>
      intro hf
    all_goals try replace hf := ih _ f hf
    all_goals simp at hf ⊢
    all_goals tauto

theorem runLoop_mem_trace (env : Env) (total : Nat) :
    ∀ (feats : List (Nat × String)) (st : RunState) (inv : Invocation),
    inv ∈ (runLoop env total feats st).1.trace →
    inv ∈ st.trace ∨ ∃ f ∈ feats.map Prod.snd,
      inv = Invocation.check f ∨ inv = Invocation.test f := by
  intro feats
  induction feats with
  | nil => intro st inv; simp [runLoop]
  | cons hd tl ih =>
    obtain ⟨idx, feature⟩ := hd
    intro st inv
    cases hchk : env.check feature <;> cases htst : env.test feature <;>
      simp only [runLoop, runCheckStage, runTestStage, hchk, htst, Bool.false_eq_true,
        if_false, if_true, ite_true, ite_false] <;>
      intro hf
    all_goals try replace hf := ih _ inv hf
    all_goals simp at hf ⊢
    all_goals aesop

theorem main_spec (env : Env) (doc : Manifest)
    (hv : env.cargoVersion = InvResult.ok)
    (hm : env.manifest = ManifestLoad.ok doc)
    (hne : feature_names doc ≠ [])
    (hc : ∀ f ∈ feature_names doc, env.check f ≠ InvResult.fileNotFound)
    (ht : ∀ f ∈ feature_names doc, env.test f ≠ InvResult.fileNotFound) :
    (main env).processed = feature_names doc ∧
    (main env).failed_features = (feature_names doc).filter
        (fun f => decide (env.check f = InvResult.calledProcessError)) ∧
    (main env).test_failed_features = (feature_names doc).filter
        (fun f => decide (env.test f = InvResult.calledProcessError)) ∧
    (main env).trace = Invocation.version ::
        (feature_names doc).flatMap (fun f => [Invocation.check f, Invocation.test f]) ∧
    (((feature_names doc).filter
        (fun f => decide (env.check f = InvResult.calledProcessError)) = [] ∧
      (feature_names doc).filter
        (fun f => decide (env.test f = InvResult.calledProcessError)) = []) →
      ((main env).outcome = Outcome.exited 0 ∧
       "\nAll features compiled successfully!" ∈ (main env).output)) ∧
    (¬((feature_names doc).filter
        (fun f => decide (env.check f = InvResult.calledProcessError)) = [] ∧
      (feature_names doc).filter
        (fun f => decide (env.test f = InvResult.calledProcessError)) = []) →
      (main env).outcome = Outcome.exited 1) := by
  have hmap : (List.enumFrom 1 (feature_names doc)).map Prod.snd = feature_names doc :=
    List.enumFrom_map_snd 1 _
  have hc' : ∀ p ∈ List.enumFrom 1 (feature_names doc),
      env.check p.2 ≠ InvResult.fileNotFound := by
    intro p hp
    exact hc p.2 (by rw [← hmap]; exact List.mem_map_of_mem _ hp)
  have ht' : ∀ p ∈ List.enumFrom 1 (feature_names doc),
      env.test p.2 ≠ InvResult.fileNotFound := by
    intro p hp
    exact ht p.2 (by rw [← hmap]; exact List.mem_map_of_mem _ hp)
  have hflat : (List.enumFrom 1 (feature_names doc)).flatMap
      (fun p => [Invocation.check p.2, Invocation.test p.2])
      = (feature_names doc).flatMap
        (fun f => [Invocation.check f, Invocation.test f]) := by
    conv_rhs => rw [← hmap]
    exact (List.flatMap_map Prod.snd (fun f => [Invocation.check f, Invocation.test f]) _).symm
  have hbig := runLoop_no_fnf env (feature_names doc).length
    (List.enumFrom 1 (feature_names doc)) (initState (feature_names doc).length) hc' ht'
  obtain ⟨hA, hB, hC, hD⟩ := hbig
  rw [hmap] at hB hC
  rw [hflat] at hD
  simp only [main, hv, hm]
  simp only [List.isEmpty_iff, hne, if_false, ite_false]
  simp only [hA, hB, hC, hD]
  simp only [initState, List.nil_append]
  by_cases hfc : (feature_names doc).filter
      (fun f => decide (env.check f = InvResult.calledProcessError)) = [] <;>
  by_cases hft : (feature_names doc).filter
      (fun f => decide (env.test f = InvResult.calledProcessError)) = [] <;>
  simp [hfc, hft]

theorem main_loop_fields (env : Env) (doc : Manifest)
    (hv : env.cargoVersion = InvResult.ok)
    (hm : env.manifest = ManifestLoad.ok doc)
    (hne : feature_names doc ≠ []) :
    (main env).processed = feature_names doc ∧
    (main env).trace = (runLoop env (feature_names doc).length
        (List.enumFrom 1 (feature_names doc))
        (initState (feature_names doc).length)).1.trace ∧
    (main env).failed_features = (runLoop env (feature_names doc).length
        (List.enumFrom 1 (feature_names doc))
        (initState (feature_names doc).length)).1.failed_features ∧
    (main env).test_failed_features = (runLoop env (feature_names doc).length
        (List.enumFrom 1 (feature_names doc))
        (initState (feature_names doc).length)).1.test_failed_features := by
  simp only [main, hv, hm, List.isEmpty_iff, hne, if_false, ite_false]
  split
  · exact ⟨rfl, rfl, rfl, rfl⟩
  · split
    · exact ⟨rfl, rfl, rfl, rfl⟩
    · exact ⟨rfl, rfl, rfl, rfl⟩

def docW : Manifest := ⟨some ["a", "b", "utils-x", "c"]⟩

def envAllOk : Env :=
  { cargoVersion := InvResult.ok, manifest := ManifestLoad.ok docW,
    check := fun _ => InvResult.ok, test := fun _ => InvResult.ok }

def envAllOk2 : Env :=
  { cargoVersion := InvResult.ok, manifest := ManifestLoad.ok docW,
    check := fun _ => InvResult.ok, test := fun _ => InvResult.ok }

def envW : Env :=
  { cargoVersion := InvResult.ok, manifest := ManifestLoad.ok docW,
    check := fun f => if f = "b" then InvResult.calledProcessError else InvResult.ok,
    test := fun f => if f = "c" then InvResult.calledProcessError else InvResult.ok }

def envCheckB : Env :=
  { cargoVersion := InvResult.ok, manifest := ManifestLoad.ok docW,
    check := fun f => if f = "b" then InvResult.calledProcessError else InvResult.ok,
    test := fun _ => InvResult.ok }

/-- C1: if the manifest yields at least one feature name after
reserved-prefix filtering and every cargo check and cargo test invocation
exits 0, then both failure lists are empty, the success message is
printed, and the process exits with status 0. -/
theorem claim1_all_success (env : Env) (doc : Manifest)
    (hv : env.cargoVersion = InvResult.ok)
    (hm : env.manifest = ManifestLoad.ok doc)
    (hn : 0 < (feature_names doc).length)
    (hc : ∀ f, env.check f = InvResult.ok)
    (ht : ∀ f, env.test f = InvResult.ok) :
    (main env).failed_features = [] ∧
    (main env).test_failed_features = [] ∧
    "\nAll features compiled successfully!" ∈ (main env).output ∧
    (main env).outcome = Outcome.exited 0 := by
  have hne : feature_names doc ≠ [] := by
    intro h; rw [h] at hn; simp at hn
  have hc' : ∀ f ∈ feature_names doc, env.check f ≠ InvResult.fileNotFound := by
    intro f _; simp [hc f]
  have ht' : ∀ f ∈ feature_names doc, env.test f ≠ InvResult.fileNotFound := by
    intro f _; simp [ht f]
  obtain ⟨hP, hB, hC, hD, hOK, hBAD⟩ := main_spec env doc hv hm hne hc' ht'
  have hfc : (feature_names doc).filter
      (fun f => decide (env.check f = InvResult.calledProcessError)) = [] := by
    simp [hc]
  have hft : (feature_names doc).filter
      (fun f => decide (env.test f = InvResult.calledProcessError)) = [] := by
    simp [ht]
  obtain ⟨hout, hmsg⟩ := hOK ⟨hfc, hft⟩
  exact ⟨by rw [hB, hfc], by rw [hC, hft], hmsg, hout⟩

theorem claim1_witness :
    (main envAllOk).failed_features = [] ∧
    (main envAllOk).test_failed_features = [] ∧
    "\nAll features compiled successfully!" ∈ (main envAllOk).output ∧
    (main envAllOk).outcome = Outcome.exited 0 :=
  claim1_all_success envAllOk docW rfl rfl (by decide) (fun _ => rfl) (fun _ => rfl)

/-- C2: if the cargo check of feature F exits non-zero while every other check
and every test exits 0, then F is in the compile-failure list, the
process exits with status 1, and every feature of the filtered sequence
still has both its check and its test invocation issued. -/
theorem claim2_single_compile_failure (env : Env) (doc : Manifest) (F : String)
    (hv : env.cargoVersion = InvResult.ok)
    (hm : env.manifest = ManifestLoad.ok doc)
    (hF : F ∈ feature_names doc)
    (hcF : env.check F = InvResult.calledProcessError)
    (hother : ∀ f, f ≠ F → env.check f = InvResult.ok)
    (ht : ∀ f, env.test f = InvResult.ok) :
    F ∈ (main env).failed_features ∧
    (main env).outcome = Outcome.exited 1 ∧
    ∀ f ∈ feature_names doc,
      Invocation.check f ∈ (main env).trace ∧
      Invocation.test f ∈ (main env).trace := by
  have hne : feature_names doc ≠ [] := List.ne_nil_of_mem hF
  have hc' : ∀ f ∈ feature_names doc, env.check f ≠ InvResult.fileNotFound := by
    intro f _
    by_cases hfF : f = F
    · rw [hfF, hcF]; simp
    · rw [hother f hfF]; simp
  have ht' : ∀ f ∈ feature_names doc, env.test f ≠ InvResult.fileNotFound := by
    intro f _; simp [ht f]
  obtain ⟨hP, hB, hC, hD, hOK, hBAD⟩ := main_spec env doc hv hm hne hc' ht'
  have hmemF : F ∈ (feature_names doc).filter
      (fun f => decide (env.check f = InvResult.calledProcessError)) :=
    List.mem_filter.2 ⟨hF, by simp [hcF]⟩
  refine ⟨by rw [hB]; exact hmemF, ?_, ?_⟩
  · exact hBAD (fun h => by rw [h.1] at hmemF; exact List.not_mem_nil F hmemF)
  · intro f hf
    constructor <;> (rw [hD]; right; exact List.mem_flatMap.2 ⟨f, hf, by simp⟩)

theorem claim2_witness :
    "b" ∈ (main envCheckB).failed_features ∧
    (main envCheckB).outcome = Outcome.exited 1 ∧
    ∀ f ∈ feature_names docW,
      Invocation.check f ∈ (main envCheckB).trace ∧
      Invocation.test f ∈ (main envCheckB).trace :=
  claim2_single_compile_failure envCheckB docW "b" rfl rfl (by decide) (by decide)
    (fun f hf => by simp [envCheckB, hf]) (fun _ => rfl)

/-- C3: for a feature in the filtered sequence whose cargo check exits
non-zero but whose cargo test exits 0 (and no invocation fails to
launch), the test stage is still attempted for it, it is in the
compile-failure list, and it is absent from the test-failure list. -/
theorem claim3_test_stage_independent (env : Env) (doc : Manifest) (F : String)
    (hv : env.cargoVersion = InvResult.ok)
    (hm : env.manifest = ManifestLoad.ok doc)
    (hF : F ∈ feature_names doc)
    (hcF : env.check F = InvResult.calledProcessError)
    (htF : env.test F = InvResult.ok)
    (hc : ∀ f ∈ feature_names doc, env.check f ≠ InvResult.fileNotFound)
    (ht : ∀ f ∈ feature_names doc, env.test f ≠ InvResult.fileNotFound) :
    Invocation.test F ∈ (main env).trace ∧
    F ∈ (main env).failed_features ∧
    F ∉ (main env).test_failed_features := by
  have hne : feature_names doc ≠ [] := List.ne_nil_of_mem hF
  obtain ⟨hP, hB, hC, hD, hOK, hBAD⟩ := main_spec env doc hv hm hne hc ht
  refine ⟨?_, ?_, ?_⟩
  · rw [hD]; right; exact List.mem_flatMap.2 ⟨F, hF, by simp⟩
  · rw [hB]; exact List.mem_filter.2 ⟨hF, by simp [hcF]⟩
  · rw [hC]
    intro hmem
    have := (List.mem_filter.1 hmem).2
    rw [htF] at this
    simp at this

theorem claim3_witness :
    Invocation.test "b" ∈ (main envCheckB).trace ∧
    "b" ∈ (main envCheckB).failed_features ∧
    "b" ∉ (main envCheckB).test_failed_features :=
  claim3_test_stage_independent envCheckB docW "b" rfl rfl (by decide) (by decide)
    rfl (by decide) (by decide)

def envLaunchFail : Env :=
  { cargoVersion := InvResult.ok, manifest := ManifestLoad.ok ⟨some ["a"]⟩,
    check := fun _ => InvResult.fileNotFound, test := fun _ => InvResult.ok }

/-- C4 counterexample: the loop catches only a non-zero exit
(CalledProcessError, lines 49 and 58).  If the cargo check invocation for
feature a instead fails to launch (FileNotFoundError — e.g. cargo removed
after the version probe), the exception escapes main uncaught and no
per-feature outcome is recorded, refuting the claim that every possible
failure of an external invocation is caught and converted. -/
theorem claim4_counterexample :
    (main envLaunchFail).outcome = Outcome.uncaughtFileNotFound ∧
    "a" ∈ (main envLaunchFail).processed ∧
    (main envLaunchFail).failed_features = [] ∧
    (main envLaunchFail).test_failed_features = [] := by
  decide

/-- C4 amended: every non-zero-exit failure (CalledProcessError) of a
cargo check or cargo test invocation during the per-feature loop is
caught at its call site and converted into an entry of the corresponding
failure list, and, provided no invocation of the loop fails to launch, no
exception escapes the top-level driver. -/
theorem claim4_catches_nonzero_exits (env : Env) (doc : Manifest)
    (hv : env.cargoVersion = InvResult.ok)
    (hm : env.manifest = ManifestLoad.ok doc)
    (hc : ∀ f ∈ feature_names doc, env.check f ≠ InvResult.fileNotFound)
    (ht : ∀ f ∈ feature_names doc, env.test f ≠ InvResult.fileNotFound) :
    (main env).outcome ≠ Outcome.uncaughtFileNotFound ∧
    ∀ f ∈ feature_names doc,
      (env.check f = InvResult.calledProcessError →
        f ∈ (main env).failed_features) ∧
      (env.test f = InvResult.calledProcessError →
        f ∈ (main env).test_failed_features) := by
  by_cases hne : feature_names doc = []
  · refine ⟨?_, ?_⟩
    · simp [main, hv, hm, hne]
    · intro f hf
      rw [hne] at hf
      exact absurd hf (List.not_mem_nil f)
  · obtain ⟨hP, hB, hC, hD, hOK, hBAD⟩ := main_spec env doc hv hm hne hc ht
    refine ⟨?_, ?_⟩
    · by_cases hz : (feature_names doc).filter
          (fun f => decide (env.check f = InvResult.calledProcessError)) = [] ∧
          (feature_names doc).filter
          (fun f => decide (env.test f = InvResult.calledProcessError)) = []
      · rw [(hOK hz).1]; simp
      · rw [hBAD hz]; simp
    · intro f hf
      refine ⟨fun hcf => ?_, fun htf => ?_⟩
      · rw [hB]; exact List.mem_filter.2 ⟨hf, by simp [hcf]⟩
      · rw [hC]; exact List.mem_filter.2 ⟨hf, by simp [htf]⟩

theorem claim4_witness :
    (main envCheckB).outcome ≠ Outcome.uncaughtFileNotFound ∧
    ∀ f ∈ feature_names docW,
      (envCheckB.check f = InvResult.calledProcessError →
        f ∈ (main envCheckB).failed_features) ∧
      (envCheckB.test f = InvResult.calledProcessError →
        f ∈ (main envCheckB).test_failed_features) :=
  claim4_catches_nonzero_exits envCheckB docW rfl rfl (by decide) (by decide)

/-- C5: a feature name beginning with the reserved prefix is never in the
processed sequence, never has a check or test invocation issued for it,
and never appears in either failure list, whatever the environment. -/
theorem claim5_reserved_prefix (env : Env) (name : String)
    (hpre : startswith name "utils-" = true) :
    name ∉ (main env).processed ∧
    Invocation.check name ∉ (main env).trace ∧
    Invocation.test name ∉ (main env).trace ∧
    name ∉ (main env).failed_features ∧
    name ∉ (main env).test_failed_features := by
  have hnmem : ∀ doc : Manifest, name ∉ feature_names doc := by
    intro doc h
    have := (List.mem_filter.1 h).2
    rw [hpre] at this
    simp at this
  cases hv : env.cargoVersion with
  | fileNotFound => simp [main, hv]
  | calledProcessError => simp [main, hv]
  | ok =>
    cases hm : env.manifest with
    | notFound => simp [main, hv, hm]
    | parseError msg => simp [main, hv, hm]
    | ok doc =>
      by_cases hne : feature_names doc = []
      · simp [main, hv, hm, hne]
      · obtain ⟨hP, hT, hB, hC⟩ := main_loop_fields env doc hv hm hne
        have hmap : (List.enumFrom 1 (feature_names doc)).map Prod.snd
            = feature_names doc := List.enumFrom_map_snd 1 _
        refine ⟨by rw [hP]; exact hnmem doc, ?_, ?_, ?_, ?_⟩
        · rw [hT]
          intro hmem
          rcases runLoop_mem_trace env _ _ _ _ hmem with h | ⟨f, hf, hor⟩
          · simp [initState] at h
          · rw [hmap] at hf
            rcases hor with h | h
            · cases h; exact hnmem doc hf
            · cases h
        · rw [hT]
          intro hmem
          rcases runLoop_mem_trace env _ _ _ _ hmem with h | ⟨f, hf, hor⟩
          · simp [initState] at h
          · rw [hmap] at hf
            rcases hor with h | h
            · cases h
            · cases h; exact hnmem doc hf
        · rw [hB]
          intro hmem
          rcases runLoop_mem_failed env _ _ _ _ hmem with h | h
          · simp [initState] at h
          · rw [hmap] at h; exact hnmem doc h
        · rw [hC]
          intro hmem
          rcases runLoop_mem_test_failed env _ _ _ _ hmem with h | h
          · simp [initState] at h
          · rw [hmap] at h; exact hnmem doc h

theorem claim5_witness :
    "utils-x" ∉ (main envW).processed ∧
    Invocation.check "utils-x" ∉ (main envW).trace ∧
    Invocation.test "utils-x" ∉ (main envW).trace ∧
    "utils-x" ∉ (main envW).failed_features ∧
    "utils-x" ∉ (main envW).test_failed_features :=
  claim5_reserved_prefix envW "utils-x" (by decide)

def envEmptyDoc : Env :=
  { cargoVersion := InvResult.ok, manifest := ManifestLoad.ok ⟨some ["utils-a", "utils-b"]⟩,
    check := fun _ => InvResult.ok, test := fun _ => InvResult.ok }

def envNoManifest : Env :=
  { cargoVersion := InvResult.ok, manifest := ManifestLoad.notFound,
    check := fun _ => InvResult.ok, test := fun _ => InvResult.ok }

def envNoTable : Env :=
  { cargoVersion := InvResult.ok, manifest := ManifestLoad.ok ⟨none⟩,
    check := fun _ => InvResult.ok, test := fun _ => InvResult.ok }

/-- C6: when the filtered feature-name sequence is empty the script prints
the informational no-features message, issues no check or test invocation
(the trace holds only the version probe), and exits with status 0. -/
theorem claim6_empty_features (env : Env) (doc : Manifest)
    (hv : env.cargoVersion = InvResult.ok)
    (hm : env.manifest = ManifestLoad.ok doc)
    (hempty : feature_names doc = []) :
    "No features defined in Cargo.toml." ∈ (main env).output ∧
    (main env).trace = [Invocation.version] ∧
    (main env).outcome = Outcome.exited 0 := by
  simp [main, hv, hm, hempty]

theorem claim6_witness :
    "No features defined in Cargo.toml." ∈ (main envEmptyDoc).output ∧
    (main envEmptyDoc).trace = [Invocation.version] ∧
    (main envEmptyDoc).outcome = Outcome.exited 0 :=
  claim6_empty_features envEmptyDoc ⟨some ["utils-a", "utils-b"]⟩ rfl rfl (by decide)

/-- C7: when Cargo.toml is absent the script prints the specific
not-found message, exits with status 1, and has issued no build-tool
invocation other than the version probe. -/
theorem claim7_missing_manifest (env : Env)
    (hv : env.cargoVersion = InvResult.ok)
    (hm : env.manifest = ManifestLoad.notFound) :
    (main env).output = ["Error: Cargo.toml not found in current directory."] ∧
    (main env).trace = [Invocation.version] ∧
    (main env).outcome = Outcome.exited 1 := by
  simp [main, hv, hm]

theorem claim7_witness :
    (main envNoManifest).output = ["Error: Cargo.toml not found in current directory."] ∧
    (main envNoManifest).trace = [Invocation.version] ∧
    (main envNoManifest).outcome = Outcome.exited 1 :=
  claim7_missing_manifest envNoManifest rfl rfl

/-- C8: the processed sequence equals the feature-table keys in
declaration order with the reserved-prefix names removed, and each
failure list is the processed sequence filtered to the features whose
corresponding invocation exits non-zero — hence each failure list
records names in processing order and is a subsequence of the processed
order. -/
theorem claim8_processing_order (env : Env) (doc : Manifest)
    (hv : env.cargoVersion = InvResult.ok)
    (hm : env.manifest = ManifestLoad.ok doc)
    (hc : ∀ f ∈ feature_names doc, env.check f ≠ InvResult.fileNotFound)
    (ht : ∀ f ∈ feature_names doc, env.test f ≠ InvResult.fileNotFound) :
    (main env).processed
      = (doc.featuresTable.getD []).filter (fun n => !(startswith n "utils-")) ∧
    (main env).failed_features
      = (main env).processed.filter
          (fun f => decide (env.check f = InvResult.calledProcessError)) ∧
    (main env).test_failed_features
      = (main env).processed.filter
          (fun f => decide (env.test f = InvResult.calledProcessError)) ∧
    ((main env).failed_features).Sublist (main env).processed ∧
    ((main env).test_failed_features).Sublist (main env).processed := by
  by_cases hne : feature_names doc = []
  · have h1 : (main env).processed = feature_names doc := by
      simp [main, hv, hm, hne]
    have h2 : (main env).failed_features = [] := by
      simp [main, hv, hm, hne]
    have h3 : (main env).test_failed_features = [] := by
      simp [main, hv, hm, hne]
    rw [h1, h2, h3]
    refine ⟨rfl, ?_, ?_, ?_, ?_⟩ <;> rw [hne] <;> simp
  · obtain ⟨hP, hB, hC, hD, hOK, hBAD⟩ := main_spec env doc hv hm hne hc ht
    rw [hP, hB, hC]
    exact ⟨rfl, rfl, rfl, List.filter_sublist _, List.filter_sublist _⟩

theorem claim8_witness :
    (main envW).processed
      = (docW.featuresTable.getD []).filter (fun n => !(startswith n "utils-")) ∧
    (main envW).failed_features
      = (main envW).processed.filter
          (fun f => decide (envW.check f = InvResult.calledProcessError)) ∧
    (main envW).test_failed_features
      = (main envW).processed.filter
          (fun f => decide (envW.test f = InvResult.calledProcessError)) ∧
    ((main envW).failed_features).Sublist (main envW).processed ∧
    ((main envW).test_failed_features).Sublist (main envW).processed :=
  claim8_processing_order envW docW rfl rfl (by decide) (by decide)

/-- C9: a manifest that parses but has no features table behaves exactly
like one with an empty features table: the run is identical to the run on
an empty-table manifest, the no-features message is printed, no check or
test invocation is issued, and the process exits with status 0. -/
theorem claim9_missing_table (env : Env)
    (hv : env.cargoVersion = InvResult.ok)
    (hm : env.manifest = ManifestLoad.ok ⟨none⟩) :
    main env = main { env with manifest := ManifestLoad.ok ⟨some []⟩ } ∧
    "No features defined in Cargo.toml." ∈ (main env).output ∧
    (main env).trace = [Invocation.version] ∧
    (main env).outcome = Outcome.exited 0 := by
  have hempty : feature_names (⟨none⟩ : Manifest) = [] := by
    simp [feature_names]
  refine ⟨?_, ?_⟩
  · simp [main, hv, hm, feature_names]
  · simp [main, hv, hm, hempty]

theorem claim9_witness :
    main envNoTable = main { envNoTable with manifest := ManifestLoad.ok ⟨some []⟩ } ∧
    "No features defined in Cargo.toml." ∈ (main envNoTable).output ∧
    (main envNoTable).trace = [Invocation.version] ∧
    (main envNoTable).outcome = Outcome.exited 0 :=
  claim9_missing_table envNoTable rfl rfl

/-- C10: the script is deterministic — two environments that agree on the
version-probe result, the manifest-load result, and the exit behaviour of
every check and test invocation produce identical runs: same processed
sequence, same failure lists, same output, same trace, same termination. -/
theorem claim10_deterministic (e1 e2 : Env)
    (h1 : e1.cargoVersion = e2.cargoVersion)
    (h2 : e1.manifest = e2.manifest)
    (h3 : e1.check = e2.check)
    (h4 : e1.test = e2.test) :
    main e1 = main e2 := by
  obtain ⟨a1, b1, c1, d1⟩ := e1
  obtain ⟨a2, b2, c2, d2⟩ := e2
  cases h1
  cases h2
  cases h3
  cases h4
  rfl

theorem claim10_witness : main envAllOk = main envAllOk2 :=
  claim10_deterministic envAllOk envAllOk2 rfl rfl rfl rfl
end CheckFeatures
